import Mathlib

/-!
Verification of the real-time collaboration core of the pdf-translation-platform
backend: a shallow embedding of

  * `backend/app/services/collab/crdt_manager.py`   (`CRDTStateManager`)
  * `backend/app/services/collab/snapshot_store.py` (`SnapshotStore`)
  * `backend/app/services/presence_service.py`      (`PresenceService`)
  * `backend/app/services/comments_service.py`      (`CommentsService`)

together with theorems settling the behavioural claims about version
discipline, soft-lock ownership, snapshot round-trips, presence cleanup,
suggestion status transitions and comment validation.

Modelling conventions, used throughout:

  * Python `dict`s are embedded as insertion-ordered association lists
    (`dictGet` / `dictInsert` / `dictErase` below); `dictInsert` replaces an
    existing binding in place, as CPython assignment does, and `dictErase`
    models `del d[k]` / `d.pop(k)`.
  * `datetime.utcnow()` readings and ISO-8601 timestamp strings are embedded
    as `Nat` clock ticks measured in seconds: comparison of ISO-8601 UTC
    strings is order-isomorphic to comparison of the instants they denote,
    and `timedelta(minutes=5)` becomes `300`.  Each Python entry point that
    reads the clock takes the reading(s) as an explicit `now` argument; the
    microsecond drift between consecutive `utcnow()` calls inside one method
    body is collapsed to a single reading.
  * `uuid.uuid4()` results are taken as explicit arguments (`opId`,
    `freshId`, `snapId`, `lockId` …) since they are draws of fresh names.
  * A JSON field that is absent and one that is present with value `null`
    are identified: both become `none` of an `Option` field.  Python's
    `d.get(k, default)` therefore becomes `Option.getD`.
  * Error messages keep the fixed text of the Python `f`-strings with the
    interpolated identifier dropped.
-/

/-- Lookup in an insertion-ordered association list: Python `d.get(k)` /
`d[k]` (the caller distinguishes the `KeyError` case via `Option`). -/
def dictGet [DecidableEq κ] (d : List (κ × α)) (k : κ) : Option α :=
  (d.find? (fun kv => kv.1 = k)).map (·.2)

/-- Assignment `d[k] = v` on an insertion-ordered association list: replaces
the binding in place if the key is present, appends otherwise (CPython dict
semantics). -/
def dictInsert [DecidableEq κ] : List (κ × α) → κ → α → List (κ × α)
  | [], k, v => [(k, v)]
  | (k', v') :: rest, k, v =>
      if k' = k then (k, v) :: rest else (k', v') :: dictInsert rest k v

/-- Deletion `del d[k]` on an association list (dict keys are unique, so
dropping every binding of `k` agrees with removing the one binding). -/
def dictErase [DecidableEq κ] : List (κ × α) → κ → List (κ × α)
  | [], _ => []
  | (k', v') :: rest, k =>
      if k' = k then dictErase rest k else (k', v') :: dictErase rest k

/-- Python's `for x in l: if p x: mutate x; return` idiom: rewrite the first
element satisfying `p` with `f`, or report that none was found. -/
def updateFirst (p : α → Bool) (f : α → α) : List α → Option (List α)
  | [] => none
  | x :: xs => if p x then some (f x :: xs) else (updateFirst p f xs).map (x :: ·)

/-- Python's `for i, x in enumerate(l): if p x: del l[i]; return` idiom:
drop the first element satisfying `p`, or report that none was found. -/
def deleteFirst (p : α → Bool) : List α → Option (List α)
  | [] => none
  | x :: xs => if p x then some xs else (deleteFirst p xs).map (x :: ·)

/-!
## Serialized snapshot payloads

`SnapshotStore._compress_state` serializes a room state with
`json.dumps`, wraps the JSON text with `pickle.dumps` and base64-encodes the
result; `_decompress_state` inverts the three stdlib encodings exactly and
falls back to `{}` when decoding fails.  The three stdlib codecs are not part
of this repository; their composition is modelled as one concrete injective
encoding of room states into a list of naturals (the byte stream) with a
matching total decoder, which is what the claims about snapshots observe.
-/

def encNat (n : Nat) : List Nat := [n]

def decNat : List Nat → Option (Nat × List Nat)
  | [] => none
  | n :: r => some (n, r)

def encInt : Int → List Nat
  | .ofNat n => [0, n]
  | .negSucc n => [1, n]

def decInt : List Nat → Option (Int × List Nat)
  | 0 :: n :: r => some (.ofNat n, r)
  | 1 :: n :: r => some (.negSucc n, r)
  | _ => none

def encBool (b : Bool) : List Nat := [cond b 1 0]

def decBool : List Nat → Option (Bool × List Nat)
  | 0 :: r => some (false, r)
  | 1 :: r => some (true, r)
  | _ => none

def encString (s : String) : List Nat :=
  s.data.length :: s.data.map Char.toNat

def decString : List Nat → Option (String × List Nat)
  | [] => none
  | n :: r =>
      if r.length < n then none
      else some (String.mk ((r.take n).map Char.ofNat), r.drop n)

def encOption (enc : α → List Nat) : Option α → List Nat
  | none => [0]
  | some a => 1 :: enc a

def decOption (dec : List Nat → Option (α × List Nat)) :
    List Nat → Option (Option α × List Nat)
  | 0 :: r => some (none, r)
  | 1 :: r => (dec r).map (fun ar => (some ar.1, ar.2))
  | _ => none

def encListBody (enc : α → List Nat) : List α → List Nat
  | [] => []
  | x :: xs => enc x ++ encListBody enc xs

def encList (enc : α → List Nat) (xs : List α) : List Nat :=
  xs.length :: encListBody enc xs

def decListBody (dec : List Nat → Option (α × List Nat)) :
    Nat → List Nat → Option (List α × List Nat)
  | 0, r => some ([], r)
  | n + 1, r =>
      match dec r with
      | none => none
      | some (a, r') =>
          match decListBody dec n r' with
          | none => none
          | some (as, r'') => some (a :: as, r'')

def decList (dec : List Nat → Option (α × List Nat)) :
    List Nat → Option (List α × List Nat)
  | [] => none
  | n :: r => decListBody dec n r

/-!
## Room state data model (`crdt_manager.py`)

The segment / comment / suggestion dictionaries built by the nine operation
handlers, with the fixed key sets the handlers read and write.  Keys a
handler only adds later (`last_modified`, `accepted_at`, …) are `Option`
fields initialized to `none`.
-/

/-- A segment dictionary as built by `_insert_segment` and mutated by
`_update_segment`. -/
structure Segment where
  id : String
  text : String
  position : Int
  created_at : Nat
  created_by : Option String
  version : Nat
  last_modified : Option Nat
  last_modified_by : Option String
deriving DecidableEq, Repr

/-- A comment dictionary as built by `_add_comment` and mutated by
`_update_comment`. -/
structure Comment where
  id : String
  segment_id : Option String
  text : String
  author_id : Option String
  created_at : Nat
  resolved : Bool
  last_modified : Option Nat
deriving DecidableEq, Repr

/-- A suggestion dictionary as built by `_add_suggestion` and mutated by
`_accept_suggestion` / `_reject_suggestion`. -/
structure Suggestion where
  id : String
  segment_id : Option String
  original_text : String
  suggested_text : String
  author_id : Option String
  created_at : Nat
  status : String
  accepted_at : Option Nat
  accepted_by : Option String
  rejected_at : Option Nat
  rejected_by : Option String
deriving DecidableEq, Repr

/-- The `metadata` sub-dictionary of a room state. -/
structure StateMetadata where
  created_at : Nat
  last_modified : Nat
  last_modified_by : Option String
deriving DecidableEq, Repr

/-- A well-formed room state dictionary (`page_id`, `version`, `segments`,
`comments`, `suggestions`, `metadata`), as produced by
`initialize_page_state` and maintained by `apply_operation`. -/
structure RoomState where
  page_id : Nat
  version : Nat
  segments : List Segment
  comments : List Comment
  suggestions : List Suggestion
  metadata : StateMetadata
deriving DecidableEq, Repr

/-- An operation dictionary received by `apply_operation`: the `type` tag,
the type-specific payload fields the nine handlers read, and the metadata
fields (`id`, `timestamp`, `user_id`) that `apply_operation` assigns before
dispatch. -/
structure Operation where
  type : Option String
  segment_id : Option String
  comment_id : Option String
  suggestion_id : Option String
  text : Option String
  position : Option Int
  original_text : Option String
  suggested_text : Option String
  id : Option String
  timestamp : Option Nat
  user_id : Option String
deriving DecidableEq, Repr

/-- The handler-specific result dictionary returned by each of the nine
operation handlers. -/
inductive OpResult where
  | segmentInserted (segment_id : String) (position : Int)
  | segmentUpdated (segment_id : Option String)
  | segmentDeleted (segment_id : Option String)
  | commentAdded (comment_id : String)
  | commentUpdated (comment_id : Option String)
  | commentDeleted (comment_id : Option String)
  | suggestionAdded (suggestion_id : String)
  | suggestionAccepted (suggestion_id : Option String)
  | suggestionRejected (suggestion_id : Option String)
deriving DecidableEq, Repr

/-!
## Record codecs for the snapshot payload
-/

def encSegment (s : Segment) : List Nat :=
  encString s.id ++ encString s.text ++ encInt s.position ++
    encNat s.created_at ++ encOption encString s.created_by ++
    encNat s.version ++ encOption encNat s.last_modified ++
    encOption encString s.last_modified_by

def decSegment (r0 : List Nat) : Option (Segment × List Nat) := do
  let (id, r1) ← decString r0
  let (text, r2) ← decString r1
  let (position, r3) ← decInt r2
  let (created_at, r4) ← decNat r3
  let (created_by, r5) ← decOption decString r4
  let (version, r6) ← decNat r5
  let (last_modified, r7) ← decOption decNat r6
  let (last_modified_by, r8) ← decOption decString r7
  pure (⟨id, text, position, created_at, created_by, version,
         last_modified, last_modified_by⟩, r8)

def encComment (c : Comment) : List Nat :=
  encString c.id ++ encOption encString c.segment_id ++ encString c.text ++
    encOption encString c.author_id ++ encNat c.created_at ++
    encBool c.resolved ++ encOption encNat c.last_modified

def decComment (r0 : List Nat) : Option (Comment × List Nat) := do
  let (id, r1) ← decString r0
  let (segment_id, r2) ← decOption decString r1
  let (text, r3) ← decString r2
  let (author_id, r4) ← decOption decString r3
  let (created_at, r5) ← decNat r4
  let (resolved, r6) ← decBool r5
  let (last_modified, r7) ← decOption decNat r6
  pure (⟨id, segment_id, text, author_id, created_at, resolved,
         last_modified⟩, r7)

def encSuggestion (s : Suggestion) : List Nat :=
  encString s.id ++ encOption encString s.segment_id ++
    encString s.original_text ++ encString s.suggested_text ++
    encOption encString s.author_id ++ encNat s.created_at ++
    encString s.status ++ encOption encNat s.accepted_at ++
    encOption encString s.accepted_by ++ encOption encNat s.rejected_at ++
    encOption encString s.rejected_by

def decSuggestion (r0 : List Nat) : Option (Suggestion × List Nat) := do
  let (id, r1) ← decString r0
  let (segment_id, r2) ← decOption decString r1
  let (original_text, r3) ← decString r2
  let (suggested_text, r4) ← decString r3
  let (author_id, r5) ← decOption decString r4
  let (created_at, r6) ← decNat r5
  let (status, r7) ← decString r6
  let (accepted_at, r8) ← decOption decNat r7
  let (accepted_by, r9) ← decOption decString r8
  let (rejected_at, r10) ← decOption decNat r9
  let (rejected_by, r11) ← decOption decString r10
  pure (⟨id, segment_id, original_text, suggested_text, author_id,
         created_at, status, accepted_at, accepted_by, rejected_at,
         rejected_by⟩, r11)

def encMetadata (m : StateMetadata) : List Nat :=
  encNat m.created_at ++ encNat m.last_modified ++
    encOption encString m.last_modified_by

def decMetadata (r0 : List Nat) : Option (StateMetadata × List Nat) := do
  let (created_at, r1) ← decNat r0
  let (last_modified, r2) ← decNat r1
  let (last_modified_by, r3) ← decOption decString r2
  pure (⟨created_at, last_modified, last_modified_by⟩, r3)

def encRoomState (st : RoomState) : List Nat :=
  encNat st.page_id ++ encNat st.version ++
    encList encSegment st.segments ++ encList encComment st.comments ++
    encList encSuggestion st.suggestions ++ encMetadata st.metadata

def decRoomState (r0 : List Nat) : Option (RoomState × List Nat) := do
  let (page_id, r1) ← decNat r0
  let (version, r2) ← decNat r1
  let (segments, r3) ← decList decSegment r2
  let (comments, r4) ← decList decComment r3
  let (suggestions, r5) ← decList decSuggestion r4
  let (metadata, r6) ← decMetadata r5
  pure (⟨page_id, version, segments, comments, suggestions, metadata⟩, r6)

/-- `SnapshotStore._compress_state`: the `json.dumps` / `pickle.dumps` /
`base64.b64encode` pipeline, modelled as the injective encoding above. -/
def compressState (st : RoomState) : List Nat := encRoomState st

/-- `SnapshotStore._decompress_state`: inverse of `compressState`; `none`
models the method's graceful fallback to the empty dict `{}` when the stored
payload does not decode. -/
def decompressState (bs : List Nat) : Option RoomState :=
  match decRoomState bs with
  | some (st, []) => some st
  | _ => none

/-!
## Snapshot store (`snapshot_store.py`)
-/

/-- A stored snapshot record (`snapshot_data` in `create_snapshot`).  The
`state` field holds the compressed payload; it is `Option` because
`list_snapshots` pops the `"state"` key out of the stored record. -/
structure SnapshotData where
  id : String
  page_id : Nat
  version : Nat
  state : Option (List Nat)
  created_by : String
  created_at : Nat
  size_bytes : Nat
deriving DecidableEq, Repr

/-- A snapshot as returned by `get_snapshot` / `get_latest_snapshot`: the
stored record with the payload decompressed (`none` models the decode
fallback `{}`). -/
structure DecodedSnapshot where
  id : String
  page_id : Nat
  version : Nat
  state : Option RoomState
  created_by : String
  created_at : Nat
  size_bytes : Nat
deriving DecidableEq, Repr

/-- `SnapshotStore`: the in-memory `snapshots` dict, id → record. -/
structure SnapshotStore where
  snapshots : List (String × SnapshotData)
deriving DecidableEq, Repr

/-- `SnapshotStore.create_snapshot`: compress the state, store the record
under the freshly generated id `snapId`, return the id. -/
def create_snapshot (store : SnapshotStore) (page_id : Nat) (state : RoomState)
    (created_by : String) (version : Nat) (snapId : String) (now : Nat) :
    SnapshotStore × String :=
  let compressed := compressState state
  let data : SnapshotData :=
    { id := snapId, page_id := page_id, version := version,
      state := some compressed, created_by := created_by, created_at := now,
      size_bytes := compressed.length }
  (⟨dictInsert store.snapshots snapId data⟩, snapId)

/-- `SnapshotStore.get_snapshot`: copy the record and decompress its payload.
A record whose `"state"` key was popped raises `KeyError`, which the method
catches, returning `None`. -/
def get_snapshot (store : SnapshotStore) (snapshot_id : String) :
    Option DecodedSnapshot :=
  match dictGet store.snapshots snapshot_id with
  | none => none
  | some d =>
      match d.state with
      | none => none
      | some compressed =>
          some { id := d.id, page_id := d.page_id, version := d.version,
                 state := decompressState compressed,
                 created_by := d.created_by, created_at := d.created_at,
                 size_bytes := d.size_bytes }

/-- Python's `max(..., key=...)` over `(created_at, version)` tuples: keeps
the first element whose key is maximal (replacement only on strict
increase). -/
def maxSnapshot (x : SnapshotData) (xs : List SnapshotData) : SnapshotData :=
  xs.foldl
    (fun best y =>
      if best.created_at < y.created_at ∨
         (best.created_at = y.created_at ∧ best.version < y.version)
      then y else best)
    x

/-- `SnapshotStore.get_latest_snapshot`: pick the page's snapshot with the
greatest `(created_at, version)` key and decompress it; reading a popped
`"state"` key raises `KeyError`, caught into `None`. -/
def get_latest_snapshot (store : SnapshotStore) (page_id : Nat) :
    Option DecodedSnapshot :=
  match (store.snapshots.map (·.2)).filter (fun d => d.page_id == page_id) with
  | [] => none
  | d :: ds =>
      let latest := maxSnapshot d ds
      match latest.state with
      | none => none
      | some compressed =>
          some { id := latest.id, page_id := latest.page_id,
                 version := latest.version,
                 state := decompressState compressed,
                 created_by := latest.created_by,
                 created_at := latest.created_at,
                 size_bytes := latest.size_bytes }

/-- `list.sort(key=..., reverse=True)` on snapshot records keyed by
`created_at`: stable descending insertion — an element moves left only past
strictly smaller keys, so equal keys keep their original order. -/
def insertDescByCreated (x : Nat × SnapshotData) :
    List (Nat × SnapshotData) → List (Nat × SnapshotData)
  | [] => [x]
  | y :: ys =>
      if y.2.created_at ≤ x.2.created_at then x :: y :: ys
      else y :: insertDescByCreated x ys

def sortDescByCreated : List (Nat × SnapshotData) → List (Nat × SnapshotData)
  | [] => []
  | x :: xs => insertDescByCreated x (sortDescByCreated xs)

/-- `SnapshotStore.list_snapshots`: filter the page's records, sort newest
first, paginate, and pop the `"state"` key from each listed record.  The
listed records are the stored dict objects themselves, so the pop also
mutates the store — the first component returns the store as the method
leaves it.  Entries are tracked by their index in the `snapshots` dict to
model Python object identity. -/
def list_snapshots (store : SnapshotStore) (page_id limit offset : Nat) :
    SnapshotStore × List SnapshotData :=
  let indexed := store.snapshots.enum.map (fun p => (p.1, p.2.2))
  let page_snapshots := indexed.filter (fun p => p.2.page_id == page_id)
  let sorted := sortDescByCreated page_snapshots
  let paginated := (sorted.drop offset).take limit
  let hit := paginated.map (·.1)
  let snapshots' := store.snapshots.enum.map
    (fun p => if hit.contains p.1 then (p.2.1, { p.2.2 with state := none })
              else p.2)
  (⟨snapshots'⟩, paginated.map (fun p => { p.2 with state := none }))

/-!
## Operation handlers and the state manager (`crdt_manager.py`)
-/

/-- `_insert_segment`: build a segment from the operation (id defaults to a
fresh uuid, text to `""`, position to `0`) and append it. -/
def insertSegmentOp (st : RoomState) (op : Operation) (freshId : String)
    (now : Nat) : RoomState × OpResult :=
  let seg : Segment :=
    { id := op.segment_id.getD freshId, text := op.text.getD "",
      position := op.position.getD 0, created_at := now,
      created_by := op.user_id, version := 1, last_modified := none,
      last_modified_by := none }
  ({ st with segments := st.segments ++ [seg] },
   .segmentInserted seg.id seg.position)

/-- `_update_segment`: rewrite the first segment whose id matches, bumping
its per-segment version; `ValueError` if none matches. -/
def updateSegmentOp (st : RoomState) (op : Operation) (now : Nat) :
    Except String (RoomState × OpResult) :=
  match updateFirst (fun s => op.segment_id == some s.id)
      (fun s => { s with
                  text := op.text.getD ""
                  version := s.version + 1
                  last_modified := some now
                  last_modified_by := op.user_id })
      st.segments with
  | some segs => .ok ({ st with segments := segs }, .segmentUpdated op.segment_id)
  | none => .error "Segment not found"

/-- `_delete_segment`: drop the first segment whose id matches; `ValueError`
if none matches. -/
def deleteSegmentOp (st : RoomState) (op : Operation) :
    Except String (RoomState × OpResult) :=
  match deleteFirst (fun s => op.segment_id == some s.id) st.segments with
  | some segs => .ok ({ st with segments := segs }, .segmentDeleted op.segment_id)
  | none => .error "Segment not found"

/-- `_add_comment`: build a comment from the operation (no validation of the
text or of the referenced segment) and append it. -/
def addCommentOp (st : RoomState) (op : Operation) (freshId : String)
    (now : Nat) : RoomState × OpResult :=
  let c : Comment :=
    { id := op.comment_id.getD freshId, segment_id := op.segment_id,
      text := op.text.getD "", author_id := op.user_id, created_at := now,
      resolved := false, last_modified := none }
  ({ st with comments := st.comments ++ [c] }, .commentAdded c.id)

/-- `_update_comment`: rewrite the first comment whose id matches;
`ValueError` if none matches. -/
def updateCommentOp (st : RoomState) (op : Operation) (now : Nat) :
    Except String (RoomState × OpResult) :=
  match updateFirst (fun c => op.comment_id == some c.id)
      (fun c => { c with text := op.text.getD "", last_modified := some now })
      st.comments with
  | some cs => .ok ({ st with comments := cs }, .commentUpdated op.comment_id)
  | none => .error "Comment not found"

/-- `_delete_comment`: drop the first comment whose id matches; `ValueError`
if none matches. -/
def deleteCommentOp (st : RoomState) (op : Operation) :
    Except String (RoomState × OpResult) :=
  match deleteFirst (fun c => op.comment_id == some c.id) st.comments with
  | some cs => .ok ({ st with comments := cs }, .commentDeleted op.comment_id)
  | none => .error "Comment not found"

/-- `_add_suggestion`: build a pending suggestion from the operation and
append it. -/
def addSuggestionOp (st : RoomState) (op : Operation) (freshId : String)
    (now : Nat) : RoomState × OpResult :=
  let s : Suggestion :=
    { id := op.suggestion_id.getD freshId, segment_id := op.segment_id,
      original_text := op.original_text.getD "",
      suggested_text := op.suggested_text.getD "",
      author_id := op.user_id, created_at := now, status := "pending",
      accepted_at := none, accepted_by := none, rejected_at := none,
      rejected_by := none }
  ({ st with suggestions := st.suggestions ++ [s] }, .suggestionAdded s.id)

/-- `_accept_suggestion`: set the first matching suggestion's status to
`"accepted"` (no check of its current status); `ValueError` if none
matches. -/
def acceptSuggestionOp (st : RoomState) (op : Operation) (now : Nat) :
    Except String (RoomState × OpResult) :=
  match updateFirst (fun s => op.suggestion_id == some s.id)
      (fun s => { s with
                  status := "accepted"
                  accepted_at := some now
                  accepted_by := op.user_id })
      st.suggestions with
  | some ss => .ok ({ st with suggestions := ss },
                    .suggestionAccepted op.suggestion_id)
  | none => .error "Suggestion not found"

/-- `_reject_suggestion`: set the first matching suggestion's status to
`"rejected"` (no check of its current status); `ValueError` if none
matches. -/
def rejectSuggestionOp (st : RoomState) (op : Operation) (now : Nat) :
    Except String (RoomState × OpResult) :=
  match updateFirst (fun s => op.suggestion_id == some s.id)
      (fun s => { s with
                  status := "rejected"
                  rejected_at := some now
                  rejected_by := op.user_id })
      st.suggestions with
  | some ss => .ok ({ st with suggestions := ss },
                    .suggestionRejected op.suggestion_id)
  | none => .error "Suggestion not found"

/-- `_apply_operation_to_state`: dispatch on `operation.get("type")` through
the nine handlers; an unrecognized type raises `ValueError`. -/
def applyOperationToState (st : RoomState) (op : Operation) (freshId : String)
    (now : Nat) : Except String (RoomState × OpResult) :=
  if op.type = some "insert_segment" then .ok (insertSegmentOp st op freshId now)
  else if op.type = some "update_segment" then updateSegmentOp st op now
  else if op.type = some "delete_segment" then deleteSegmentOp st op
  else if op.type = some "add_comment" then .ok (addCommentOp st op freshId now)
  else if op.type = some "update_comment" then updateCommentOp st op now
  else if op.type = some "delete_comment" then deleteCommentOp st op
  else if op.type = some "add_suggestion" then .ok (addSuggestionOp st op freshId now)
  else if op.type = some "accept_suggestion" then acceptSuggestionOp st op now
  else if op.type = some "reject_suggestion" then rejectSuggestionOp st op now
  else .error "Unknown operation type"

/-- Dispatch on a stored active state.  `none` models a state that restored
as the decode-fallback `{}`: every handler's first subscript of a missing
key raises `KeyError`, which `apply_operation` catches. -/
def applyOperationToStored : Option RoomState → Operation → String → Nat →
    Except String (RoomState × OpResult)
  | none, _, _, _ => .error "KeyError"
  | some st, op, freshId, now => applyOperationToState st op freshId now

/-- `CRDTStateManager`: snapshot store plus the per-page dictionaries.
(The unused `locks` dictionary of the Python class is exercised by no claim
and is elided.) -/
structure CRDTStateManager where
  snapshot_store : SnapshotStore
  active_states : List (Nat × Option RoomState)
  operation_logs : List (Nat × List Operation)
  presence : List (Nat × Finset String)
deriving DecidableEq

/-- The fresh empty state `initialize_page_state` constructs when no
snapshot exists for the page. -/
def freshRoomState (page_id : Nat) (now : Nat) : RoomState :=
  { page_id := page_id, version := 1, segments := [], comments := [],
    suggestions := [], metadata :=
      { created_at := now, last_modified := now, last_modified_by := none } }

/-- `CRDTStateManager.initialize_page_state`: adopt the latest snapshot's
payload if one exists (the payload may be the decode-fallback `{}`),
otherwise a fresh empty state; unconditionally reset the page's operation
log to `[]` and its presence set to `∅`; return the adopted state. -/
def initialize_page_state (mgr : CRDTStateManager) (page_id : Nat)
    (now : Nat) : CRDTStateManager × Option RoomState :=
  let st : Option RoomState :=
    match get_latest_snapshot mgr.snapshot_store page_id with
    | some snap => snap.state
    | none => some (freshRoomState page_id now)
  ({ mgr with
     active_states := dictInsert mgr.active_states page_id st,
     operation_logs := dictInsert mgr.operation_logs page_id [],
     presence := dictInsert mgr.presence page_id ∅ }, st)

/-- The fresh draws and clock readings consumed by one `apply_operation`
call: the operation's uuid, the uuid a handler uses when the caller supplied
no explicit id, the uuid of a periodic snapshot, and the clock. -/
structure Gen where
  opId : String
  freshId : String
  snapId : String
  now : Nat
deriving DecidableEq, Repr

/-- The outcome dictionary returned by `apply_operation`. -/
structure ApplyResult where
  operation_id : String
  success : Bool
  new_version : Option Nat
  result : Option OpResult
  error : Option String
deriving DecidableEq, Repr

/-- `CRDTStateManager.apply_operation`: initialize the page if absent,
stamp the operation with id / timestamp / user, dispatch to the handlers;
on handler failure the caught exception yields a failure result with
nothing mutated; on success append to the log, bump `version`, refresh the
metadata, and snapshot every 10th version.  The two `KeyError` arms model
the uncaught subscripts `self.active_states[page_id]` and
`self.operation_logs[page_id].append` (the second fires after the handler
has already mutated the state in place, so the mutated state is kept). -/
def apply_operation (mgr : CRDTStateManager) (page_id : Nat) (op : Operation)
    (user_id : String) (gen : Gen) : CRDTStateManager × ApplyResult :=
  let mgr0 :=
    match dictGet mgr.active_states page_id with
    | some _ => mgr
    | none => (initialize_page_state mgr page_id gen.now).1
  match dictGet mgr0.active_states page_id with
  | none =>
      (mgr0, { operation_id := op.id.getD "", success := false,
               new_version := none, result := none, error := some "KeyError" })
  | some stored =>
      let op2 := { op with
                   id := some gen.opId
                   timestamp := some gen.now
                   user_id := some user_id }
      match applyOperationToStored stored op2 gen.freshId gen.now with
      | .error e =>
          (mgr0, { operation_id := gen.opId, success := false,
                   new_version := none, result := none, error := some e })
      | .ok sr =>
          match dictGet mgr0.operation_logs page_id with
          | none =>
              ({ mgr0 with active_states :=
                   dictInsert mgr0.active_states page_id (some sr.1) },
               { operation_id := gen.opId, success := false,
                 new_version := none, result := none,
                 error := some "KeyError" })
          | some log =>
              let st2 := { sr.1 with
                           version := sr.1.version + 1
                           metadata := { sr.1.metadata with
                                         last_modified := gen.now
                                         last_modified_by := some user_id } }
              let mgr1 := { mgr0 with
                active_states := dictInsert mgr0.active_states page_id (some st2),
                operation_logs := dictInsert mgr0.operation_logs page_id (log ++ [op2]) }
              let mgr2 :=
                if st2.version % 10 = 0 then
                  { mgr1 with snapshot_store :=
                      (create_snapshot mgr1.snapshot_store page_id st2 user_id
                        st2.version gen.snapId gen.now).1 }
                else mgr1
              (mgr2, { operation_id := gen.opId, success := true,
                       new_version := some st2.version, result := some sr.2,
                       error := none })

/-- One invocation of `apply_operation`: the inbound operation, the calling
user, and the fresh draws the call consumes. -/
structure OpInvocation where
  op : Operation
  user_id : String
  gen : Gen
deriving DecidableEq, Repr

/-- A sequence of `apply_operation` calls on one page, collecting the
results in order. -/
def applyOps (page_id : Nat) :
    CRDTStateManager → List OpInvocation → CRDTStateManager × List ApplyResult
  | mgr, [] => (mgr, [])
  | mgr, i :: rest =>
      let step := apply_operation mgr page_id i.op i.user_id i.gen
      let next := applyOps page_id step.1 rest
      (next.1, step.2 :: next.2)

/-- The version of the page's active state, when the page is loaded and its
state is a well-formed dict. -/
def activeVersion (mgr : CRDTStateManager) (page_id : Nat) : Option Nat :=
  match dictGet mgr.active_states page_id with
  | some (some st) => some st.version
  | _ => none

/-- The number of successful results in a list of `apply_operation`
outcomes. -/
def countSuccess (rs : List ApplyResult) : Nat :=
  (rs.filter (fun r => r.success)).length

/-!
## Presence and soft locks (`presence_service.py`)
-/

/-- A presence entry built by `join_page`. -/
structure UserPresence where
  user_id : String
  username : String
  role : String
  color : String
  joined_at : Nat
  last_seen : Nat
  status : String
deriving DecidableEq, Repr

/-- A soft lock record built by `acquire_soft_lock`. -/
structure LockInfo where
  id : String
  user_id : String
  resource : String
  lock_type : String
  acquired_at : Nat
  expires_at : Nat
  auto_renew : Bool
deriving DecidableEq, Repr

/-- A cursor entry written by `update_cursor_position`; the free-form
position dictionary is carried as an opaque payload string. -/
structure CursorInfo where
  position : String
  updated_at : Nat
  user_id : String
deriving DecidableEq, Repr

/-- A selection entry written by `update_selection_range`; the free-form
selection dictionary is carried as an opaque payload string. -/
structure SelectionInfo where
  selection : String
  updated_at : Nat
  user_id : String
deriving DecidableEq, Repr

/-- A `user_activities` entry. -/
structure UserActivity where
  current_page : Option Nat
  last_activity : Nat
  activity_type : String
deriving DecidableEq, Repr

/-- `PresenceService`: the five per-process dictionaries. -/
structure PresenceService where
  active_users : List (Nat × List (String × UserPresence))
  user_activities : List (String × UserActivity)
  soft_locks : List (Nat × List (String × LockInfo))
  cursor_positions : List (Nat × List (String × CursorInfo))
  selection_ranges : List (Nat × List (String × SelectionInfo))
deriving DecidableEq, Repr

/-- The free-form `user_info` argument of `join_page`. -/
structure JoinInfo where
  username : Option String
  role : Option String
  color : Option String
deriving DecidableEq, Repr

/-- The ten fixed colors of `_generate_user_color`. -/
def userColors : List String :=
  ["#FF6B6B", "#4ECDC4", "#45B7D1", "#96CEB4", "#FFEAA7",
   "#DDA0DD", "#98D8C8", "#F7DC6F", "#BB8FCE", "#85C1E9"]

/-- A stand-in for CPython's seed-randomized `hash(str)`: any fixed function
models one process run; no claim observes the chosen color. -/
def pyHash (s : String) : Nat :=
  s.data.foldl (fun a c => a * 131 + c.toNat) 0

/-- `_generate_user_color`: pick a color by `hash(user_id) % 10`. -/
def generateUserColor (user_id : String) : String :=
  (userColors.getD (pyHash user_id % userColors.length) "")

/-- The result dictionary of `join_page`. -/
structure JoinResult where
  page_id : Nat
  user_id : String
  action : String
  active_users : List String
  user_count : Nat
deriving DecidableEq, Repr

/-- `PresenceService.join_page`: register (or overwrite) the presence entry,
record the activity, make sure the page's cursor and selection dicts exist,
and return the active-user listing.  `join_page` does NOT create a
`soft_locks` entry for the page. -/
def join_page (ps : PresenceService) (page_id : Nat) (user_id : String)
    (user_info : JoinInfo) (now : Nat) : PresenceService × JoinResult :=
  let ps1 :=
    match dictGet ps.active_users page_id with
    | some _ => ps
    | none => { ps with active_users := dictInsert ps.active_users page_id [] }
  let entry : UserPresence :=
    { user_id := user_id, username := user_info.username.getD "Unknown",
      role := user_info.role.getD "editor",
      color := user_info.color.getD (generateUserColor user_id),
      joined_at := now, last_seen := now, status := "active" }
  let users := (dictGet ps1.active_users page_id).getD []
  let users' := dictInsert users user_id entry
  let ps2 := { ps1 with active_users := dictInsert ps1.active_users page_id users' }
  let activity : UserActivity :=
    { current_page := some page_id, last_activity := now, activity_type := "page_join" }
  let ps3 := { ps2 with user_activities := dictInsert ps2.user_activities user_id activity }
  let ps4 :=
    match dictGet ps3.cursor_positions page_id with
    | some _ => ps3
    | none => { ps3 with cursor_positions :=
                  dictInsert ps3.cursor_positions page_id [] }
  let ps5 :=
    match dictGet ps4.selection_ranges page_id with
    | some _ => ps4
    | none => { ps4 with selection_ranges :=
                  dictInsert ps4.selection_ranges page_id [] }
  let joined := (dictGet ps5.active_users page_id).getD []
  (ps5, { page_id := page_id, user_id := user_id, action := "joined",
          active_users := joined.map (·.1), user_count := joined.length })

/-- `_release_user_locks`: delete every lock of the page held by the user
(a no-op when the page has no `soft_locks` entry). -/
def releaseUserLocks (ps : PresenceService) (page_id : Nat) (user_id : String) :
    PresenceService :=
  match dictGet ps.soft_locks page_id with
  | none => ps
  | some locks =>
      let kept := locks.filter (fun kv => !(kv.2.user_id == user_id))
      { ps with soft_locks := dictInsert ps.soft_locks page_id kept }

/-- The outcome of `leave_page`: the "Page not found" early return, the
normal result dictionary, or an uncaught `KeyError` (re-raised by the
method's `except` clause). -/
inductive LeaveResult where
  | pageNotFound
  | left (page_id : Nat) (user_id : String) (active_users : List String)
      (user_count : Nat)
  | keyError
deriving DecidableEq, Repr

/-- `PresenceService.leave_page`, step for step: remove the presence entry,
release the user's locks, pop the cursor and selection entries, refresh the
activity record, and — when the page has no remaining active user — delete
the page's four per-room dicts with bare `del` statements.  The last of
those, `del self.soft_locks[page_id]`, raises `KeyError` whenever no lock
was ever acquired in the room (`join_page` never creates that entry); the
mutations already performed are kept, as the underlying dicts were mutated
in place. -/
def leave_page (ps : PresenceService) (page_id : Nat) (user_id : String)
    (now : Nat) : PresenceService × LeaveResult :=
  match dictGet ps.active_users page_id with
  | none => (ps, .pageNotFound)
  | some users =>
      let users1 := dictErase users user_id
      let ps1 := { ps with active_users :=
                     dictInsert ps.active_users page_id users1 }
      let ps2 := releaseUserLocks ps1 page_id user_id
      match dictGet ps2.cursor_positions page_id with
      | none => (ps2, .keyError)
      | some cur =>
          let cur' := dictErase cur user_id
          let ps3 := { ps2 with cursor_positions := dictInsert ps2.cursor_positions page_id cur' }
          match dictGet ps3.selection_ranges page_id with
          | none => (ps3, .keyError)
          | some sel =>
              let sel' := dictErase sel user_id
              let ps4 := { ps3 with selection_ranges := dictInsert ps3.selection_ranges page_id sel' }
              let ps5 :=
                match dictGet ps4.user_activities user_id with
                | none => ps4
                | some act =>
                    let act' := { act with
                                  current_page := none
                                  last_activity := now
                                  activity_type := "page_leave" }
                    { ps4 with user_activities := dictInsert ps4.user_activities user_id act' }
              if users1.isEmpty then
                let ps6 := { ps5 with active_users :=
                               dictErase ps5.active_users page_id }
                let ps7 := { ps6 with cursor_positions :=
                               dictErase ps6.cursor_positions page_id }
                let ps8 := { ps7 with selection_ranges :=
                               dictErase ps7.selection_ranges page_id }
                match dictGet ps8.soft_locks page_id with
                | none => (ps8, .keyError)
                | some _ =>
                    let ps9 := { ps8 with soft_locks :=
                                   dictErase ps8.soft_locks page_id }
                    (ps9, .left page_id user_id [] 0)
              else
                (ps5, .left page_id user_id (users1.map (·.1)) users1.length)

/-- The result dictionary of `acquire_soft_lock`: success carries the new
lock's id and expiry, failure carries the current holder and its expiry. -/
inductive AcquireResult where
  | success (lock_id resource lock_type : String) (expires_at : Nat)
  | failure (message locked_by : String) (expires_at : Nat)
deriving DecidableEq, Repr

/-- `PresenceService.acquire_soft_lock`: make sure the page's lock dict
exists, then fail — mutating nothing further — iff the resource has a lock
held by a different user that has not yet expired (`now < expires_at`);
otherwise store a fresh lock expiring `300` seconds (5 minutes) from now,
silently displacing any expired or own lock. -/
def acquire_soft_lock (ps : PresenceService) (page_id : Nat)
    (user_id resource lock_type lockId : String) (now : Nat) :
    PresenceService × AcquireResult :=
  let ps1 :=
    match dictGet ps.soft_locks page_id with
    | some _ => ps
    | none => { ps with soft_locks := dictInsert ps.soft_locks page_id [] }
  let lock_info : LockInfo :=
    { id := lockId, user_id := user_id, resource := resource,
      lock_type := lock_type, acquired_at := now, expires_at := now + 300,
      auto_renew := true }
  let locks := (dictGet ps1.soft_locks page_id).getD []
  let locks' := dictInsert locks resource lock_info
  let store : PresenceService × AcquireResult :=
    ({ ps1 with soft_locks := dictInsert ps1.soft_locks page_id locks' },
     .success lockId resource lock_type lock_info.expires_at)
  match dictGet locks resource with
  | some existing =>
      if existing.user_id ≠ user_id ∧ now < existing.expires_at then
        (ps1, .failure "Resource is already locked by another user"
                existing.user_id existing.expires_at)
      else store
  | none => store

/-- The result dictionary of `release_soft_lock`. -/
inductive ReleaseResult where
  | success (resource : String) (released_at : Nat)
  | failure (message : String)
deriving DecidableEq, Repr

/-- `PresenceService.release_soft_lock`: fail without mutation when the page
has no locks, the resource is unlocked, or the lock belongs to a different
user; otherwise delete the lock entry.  No expiry check is made. -/
def release_soft_lock (ps : PresenceService) (page_id : Nat)
    (user_id resource : String) (now : Nat) : PresenceService × ReleaseResult :=
  match dictGet ps.soft_locks page_id with
  | none => (ps, .failure "No locks found for page")
  | some locks =>
      match dictGet locks resource with
      | none => (ps, .failure "Resource not locked")
      | some lock_info =>
          if lock_info.user_id ≠ user_id then
            (ps, .failure "Lock not owned by user")
          else
            let locks' := dictErase locks resource
            ({ ps with soft_locks := dictInsert ps.soft_locks page_id locks' },
             .success resource now)

/-- The result dictionary of `renew_soft_lock`. -/
inductive RenewResult where
  | success (resource : String) (new_expires_at : Nat)
  | failure (message : String)
deriving DecidableEq, Repr

/-- `PresenceService.renew_soft_lock`: same ownership-only check as
`release_soft_lock`; on success overwrite `expires_at` with `now + 300`.
No expiry check is made, so an expired but unswept lock is renewed. -/
def renew_soft_lock (ps : PresenceService) (page_id : Nat)
    (user_id resource : String) (now : Nat) : PresenceService × RenewResult :=
  match dictGet ps.soft_locks page_id with
  | none => (ps, .failure "No locks found for page")
  | some locks =>
      match dictGet locks resource with
      | none => (ps, .failure "Resource not locked")
      | some lock_info =>
          if lock_info.user_id ≠ user_id then
            (ps, .failure "Lock not owned by user")
          else
            let locks' := dictInsert locks resource { lock_info with expires_at := now + 300 }
            ({ ps with soft_locks := dictInsert ps.soft_locks page_id locks' },
             .success resource (now + 300))

/-- The lock record a `(page, resource)` pair currently holds, if any. -/
def lockLookup (ps : PresenceService) (page_id : Nat) (resource : String) :
    Option LockInfo :=
  match dictGet ps.soft_locks page_id with
  | none => none
  | some locks => dictGet locks resource

/-!
## Comments service (`comments_service.py`)
-/

/-- `\w`-characters of the `@(\w+)` mention pattern (ASCII view of the
word class). -/
def isWordChar (c : Char) : Bool := c.isAlphanum || c = '_'

/-- `re.findall(r'@(\w+)', text)`: left-to-right, non-overlapping maximal
word runs right after an `@`. -/
def extractMentionsAux : List Char → List String
  | [] => []
  | c :: rest =>
      if c = '@' then
        let run := rest.takeWhile isWordChar
        if run.isEmpty then extractMentionsAux rest
        else String.mk run :: extractMentionsAux (rest.dropWhile isWordChar)
      else extractMentionsAux rest
termination_by l => l.length
decreasing_by
  all_goals simp only [List.length_cons]
  all_goals first
    | exact Nat.lt_succ_of_le (List.dropWhile_sublist ..).length_le
    | exact Nat.lt_succ_self rest.length

/-- `CommentsService._extract_mentions`. -/
def extractMentions (text : String) : List String :=
  extractMentionsAux text.data

/-- The comment dictionary built by `CommentsService.create_comment`.  The
`replies` and `reactions` fields are initialized to constant empty
containers and never touched by the method; they are elided. -/
structure ServiceComment where
  id : String
  page_id : Nat
  segment_id : String
  text : String
  author_id : String
  parent_comment_id : Option String
  created_at : Nat
  updated_at : Nat
  resolved : Bool
  mentions : List String
deriving DecidableEq, Repr

/-- `CommentsService.create_comment`: build and return the comment record.
No validation is performed: the text (even empty) and the segment id are
stored as given; nothing checks that the segment exists. -/
def create_comment (page_id : Nat) (segment_id text user_id : String)
    (parent_comment_id : Option String) (commentId : String) (now : Nat) :
    ServiceComment :=
  { id := commentId, page_id := page_id, segment_id := segment_id,
    text := text, author_id := user_id,
    parent_comment_id := parent_comment_id, created_at := now,
    updated_at := now, resolved := false, mentions := extractMentions text }

/-!
## Concrete fixtures for witnesses and counterexamples
-/

/-- A room state with one segment and version 2. -/
def sampleState : RoomState :=
  ⟨1, 2, [⟨"s1", "hello", 0, 1, some "u", 1, none, none⟩], [], [], ⟨0, 0, none⟩⟩

/-- A freshly initialized empty room state. -/
def emptyRoom : RoomState := ⟨1, 1, [], [], [], ⟨0, 0, none⟩⟩

/-- A pending suggestion. -/
def pendingSuggestion : Suggestion :=
  ⟨"s1", some "seg-1", "orig", "sugg", some "u1", 0, "pending", none, none, none, none⟩

/-- A room holding one pending suggestion. -/
def suggestionRoom : RoomState := ⟨1, 1, [], [], [pendingSuggestion], ⟨0, 0, none⟩⟩

/-- `suggestionRoom` after `accept_suggestion` by `u2` at time 1. -/
def acceptedRoom : RoomState :=
  ⟨1, 1, [], [],
   [⟨"s1", some "seg-1", "orig", "sugg", some "u1", 0, "accepted", some 1, some "u2", none, none⟩],
   ⟨0, 0, none⟩⟩

/-- `acceptedRoom` after `reject_suggestion` by `u3` at time 2. -/
def rejectedAfterRoom : RoomState :=
  ⟨1, 1, [], [],
   [⟨"s1", some "seg-1", "orig", "sugg", some "u1", 0, "rejected", some 1, some "u2", some 2, some "u3"⟩],
   ⟨0, 0, none⟩⟩

/-- An `accept_suggestion` operation for suggestion `s1`. -/
def acceptOp : Operation :=
  ⟨some "accept_suggestion", none, none, some "s1", none, none, none, none, none, none, some "u2"⟩

/-- A `reject_suggestion` operation for suggestion `s1`. -/
def rejectOp : Operation :=
  ⟨some "reject_suggestion", none, none, some "s1", none, none, none, none, none, none, some "u3"⟩

/-- An `add_comment` operation with empty text and a segment id that exists
in no room. -/
def badCommentOp : Operation :=
  ⟨some "add_comment", some "ghost", some "c1", none, some "", none, none, none, none, none, some "u1"⟩

/-- A well-formed `insert_segment` operation. -/
def insertOp : Operation :=
  ⟨some "insert_segment", some "sA", none, none, some "hi", some 0, none, none, none, none, none⟩

/-- An `update_segment` operation referencing a nonexistent segment id. -/
def badUpdateOp : Operation :=
  ⟨some "update_segment", some "nope", none, none, some "x", none, none, none, none, none, none⟩

/-- Fresh draws for one `apply_operation` call. -/
def sampleGen : Gen := ⟨"op-1", "fresh-1", "snap-a", 7⟩

/-- A manager with page 1 loaded as the fresh empty room. -/
def managerC1 : CRDTStateManager := ⟨⟨[]⟩, [(1, some emptyRoom)], [(1, [])], [(1, ∅)]⟩

/-- A manager with page 1 loaded at version 2, a nonempty operation log and
one present user — the setting in which `initialize_page_state` is called a
second time. -/
def managerC3 : CRDTStateManager :=
  ⟨⟨[]⟩, [(1, some sampleState)], [(1, [insertOp])], [(1, {"alice"})]⟩

/-- A soft lock on `seg-1` held by user `a`, acquired at 0, expiring at 300. -/
def lockOfA : LockInfo := ⟨"l1", "a", "seg-1", "edit", 0, 300, true⟩

/-- A presence service whose only state is `a`'s lock on `seg-1` in room 1. -/
def psWithLock : PresenceService := ⟨[], [], [(1, [("seg-1", lockOfA)])], [], []⟩

/-!
## Association-list dictionary lemmas
-/

theorem dictGet_insert_self [DecidableEq κ] (d : List (κ × α)) (k : κ) (v : α) :
    dictGet (dictInsert d k v) k = some v := by
  induction d with
  | nil => simp [dictInsert, dictGet, List.find?]
  | cons kv rest ih =>
      by_cases h : kv.1 = k
      · simp [dictInsert, h, dictGet, List.find?]
      · simp only [dictInsert, if_neg h]
        simpa [dictGet, List.find?, h] using ih

theorem dictGet_erase_self [DecidableEq κ] (d : List (κ × α)) (k : κ) :
    dictGet (dictErase d k) k = none := by
  induction d with
  | nil => rfl
  | cons kv rest ih =>
      obtain ⟨k', v'⟩ := kv
      by_cases h : k' = k
      · simpa [dictErase, h] using ih
      · simp only [dictErase, if_neg h]
        simpa [dictGet, List.find?, h] using ih

/-!
## Codec round-trip lemmas
-/

theorem decNat_enc (n : Nat) (r : List Nat) : decNat (encNat n ++ r) = some (n, r) := rfl

theorem decInt_enc (i : Int) (r : List Nat) : decInt (encInt i ++ r) = some (i, r) := by
  cases i <;> rfl

theorem decBool_enc (b : Bool) (r : List Nat) : decBool (encBool b ++ r) = some (b, r) := by
  cases b <;> rfl

theorem decString_enc (s : String) (r : List Nat) :
    decString (encString s ++ r) = some (s, r) := by
  have hc : ¬ ((s.data.map Char.toNat ++ r).length < s.data.length) := by
    simp only [List.length_append, List.length_map]
    omega
  simp only [encString, List.cons_append, decString, if_neg hc]
  rw [List.take_left' (List.length_map ..), List.drop_left' (List.length_map ..)]
  simp [List.map_map, Function.comp_def, Char.ofNat_toNat]

theorem decOption_enc (dec : List Nat → Option (α × List Nat)) (enc : α → List Nat)
    (h : ∀ (a : α) (r : List Nat), dec (enc a ++ r) = some (a, r)) (o : Option α)
    (r : List Nat) : decOption dec (encOption enc o ++ r) = some (o, r) := by
  cases o with
  | none => rfl
  | some a => simp [encOption, decOption, List.cons_append, h]

theorem decListBody_enc (dec : List Nat → Option (α × List Nat)) (enc : α → List Nat)
    (h : ∀ (a : α) (r : List Nat), dec (enc a ++ r) = some (a, r)) (xs : List α)
    (r : List Nat) :
    decListBody dec xs.length (encListBody enc xs ++ r) = some (xs, r) := by
  induction xs generalizing r with
  | nil => rfl
  | cons x xs ih =>
      simp [encListBody, decListBody, List.append_assoc, h, ih]

theorem decList_enc (dec : List Nat → Option (α × List Nat)) (enc : α → List Nat)
    (h : ∀ (a : α) (r : List Nat), dec (enc a ++ r) = some (a, r)) (xs : List α)
    (r : List Nat) : decList dec (encList enc xs ++ r) = some (xs, r) := by
  simp [encList, decList, List.cons_append, decListBody_enc dec enc h]

theorem decSegment_enc (s : Segment) (r : List Nat) :
    decSegment (encSegment s ++ r) = some (s, r) := by
  simp only [encSegment, List.append_assoc, decSegment, decString_enc,
             decInt_enc, decNat_enc,
             decOption_enc decString encString decString_enc,
             decOption_enc decNat encNat decNat_enc,
             Option.pure_def, Option.bind_eq_bind, Option.some_bind]

theorem decComment_enc (c : Comment) (r : List Nat) :
    decComment (encComment c ++ r) = some (c, r) := by
  simp only [encComment, List.append_assoc, decComment, decString_enc,
             decNat_enc, decBool_enc,
             decOption_enc decString encString decString_enc,
             decOption_enc decNat encNat decNat_enc,
             Option.pure_def, Option.bind_eq_bind, Option.some_bind]

theorem decSuggestion_enc (s : Suggestion) (r : List Nat) :
    decSuggestion (encSuggestion s ++ r) = some (s, r) := by
  simp only [encSuggestion, List.append_assoc, decSuggestion, decString_enc,
             decNat_enc, decOption_enc decString encString decString_enc,
             decOption_enc decNat encNat decNat_enc,
             Option.pure_def, Option.bind_eq_bind, Option.some_bind]

theorem decMetadata_enc (m : StateMetadata) (r : List Nat) :
    decMetadata (encMetadata m ++ r) = some (m, r) := by
  simp only [encMetadata, List.append_assoc, decMetadata, decNat_enc,
             decOption_enc decString encString decString_enc,
             Option.pure_def, Option.bind_eq_bind, Option.some_bind]

theorem decRoomState_enc (st : RoomState) (r : List Nat) :
    decRoomState (encRoomState st ++ r) = some (st, r) := by
  simp only [encRoomState, List.append_assoc, decRoomState, decNat_enc,
             decList_enc decSegment encSegment decSegment_enc,
             decList_enc decComment encComment decComment_enc,
             decList_enc decSuggestion encSuggestion decSuggestion_enc,
             decMetadata_enc,
             Option.pure_def, Option.bind_eq_bind, Option.some_bind]

theorem decompress_compress (st : RoomState) :
    decompressState (compressState st) = some st := by
  have h := decRoomState_enc st []
  rw [List.append_nil] at h
  simp [decompressState, compressState, h]

/-!
## Handler lemmas
-/

theorem updateSegmentOp_version (st : RoomState) (op : Operation) (now : Nat)
    (pr : RoomState × OpResult) (h : updateSegmentOp st op now = .ok pr) :
    pr.1.version = st.version := by
  unfold updateSegmentOp at h
  split at h
  · injection h with h; subst h; rfl
  · exact Except.noConfusion h

theorem deleteSegmentOp_version (st : RoomState) (op : Operation)
    (pr : RoomState × OpResult) (h : deleteSegmentOp st op = .ok pr) :
    pr.1.version = st.version := by
  unfold deleteSegmentOp at h
  split at h
  · injection h with h; subst h; rfl
  · exact Except.noConfusion h

theorem updateCommentOp_version (st : RoomState) (op : Operation) (now : Nat)
    (pr : RoomState × OpResult) (h : updateCommentOp st op now = .ok pr) :
    pr.1.version = st.version := by
  unfold updateCommentOp at h
  split at h
  · injection h with h; subst h; rfl
  · exact Except.noConfusion h

theorem deleteCommentOp_version (st : RoomState) (op : Operation)
    (pr : RoomState × OpResult) (h : deleteCommentOp st op = .ok pr) :
    pr.1.version = st.version := by
  unfold deleteCommentOp at h
  split at h
  · injection h with h; subst h; rfl
  · exact Except.noConfusion h

theorem acceptSuggestionOp_version (st : RoomState) (op : Operation) (now : Nat)
    (pr : RoomState × OpResult) (h : acceptSuggestionOp st op now = .ok pr) :
    pr.1.version = st.version := by
  unfold acceptSuggestionOp at h
  split at h
  · injection h with h; subst h; rfl
  · exact Except.noConfusion h

theorem rejectSuggestionOp_version (st : RoomState) (op : Operation) (now : Nat)
    (pr : RoomState × OpResult) (h : rejectSuggestionOp st op now = .ok pr) :
    pr.1.version = st.version := by
  unfold rejectSuggestionOp at h
  split at h
  · injection h with h; subst h; rfl
  · exact Except.noConfusion h

/-- No handler touches the room-level `version` field: a successful
dispatch returns a state with the version unchanged (the `+ 1` bump is
performed by `apply_operation` afterwards). -/
theorem applyOperationToState_version_eq (st : RoomState) (op : Operation)
    (freshId : String) (now : Nat) (pr : RoomState × OpResult)
    (h : applyOperationToState st op freshId now = .ok pr) :
    pr.1.version = st.version := by
  unfold applyOperationToState at h
  split_ifs at h
  · injection h with h; subst h; rfl
  · exact updateSegmentOp_version st op now pr h
  · exact deleteSegmentOp_version st op pr h
  · injection h with h; subst h; rfl
  · exact updateCommentOp_version st op now pr h
  · exact deleteCommentOp_version st op pr h
  · injection h with h; subst h; rfl
  · exact acceptSuggestionOp_version st op now pr h
  · exact rejectSuggestionOp_version st op now pr h

/-- The first element matched by `find?` is the one `updateFirst` rewrites:
when `f` preserves the predicate, the rewritten list's first match is the
image of the original first match. -/
theorem updateFirst_find (p : α → Bool) (f : α → α)
    (hpf : ∀ a, p (f a) = p a) (l : List α) (a : α)
    (ha : l.find? p = some a) :
    ∃ l', updateFirst p f l = some l' ∧ l'.find? p = some (f a) := by
  induction l with
  | nil => exact Option.noConfusion ha
  | cons x xs ih =>
      by_cases hx : p x
      · rw [List.find?_cons_of_pos _ hx] at ha
        injection ha with ha
        subst ha
        refine ⟨f x :: xs, by simp [updateFirst, hx], ?_⟩
        have hfx : p (f x) = true := by rw [hpf]; exact hx
        rw [List.find?_cons_of_pos _ hfx]
      · rw [List.find?_cons_of_neg _ hx] at ha
        obtain ⟨l', hu, hf⟩ := ih ha
        refine ⟨x :: l', by simp [updateFirst, hx, hu], ?_⟩
        rw [List.find?_cons_of_neg _ hx]; exact hf

/-- One `apply_operation` call on a loaded page either fails and leaves the
whole manager untouched, or succeeds having bumped the page's version by
exactly one, stored the new state, and appended to the page's log. -/
theorem apply_operation_spec (mgr : CRDTStateManager) (page_id : Nat)
    (op : Operation) (user_id : String) (gen : Gen) (st : RoomState)
    (log : List Operation)
    (hst : dictGet mgr.active_states page_id = some (some st))
    (hlog : dictGet mgr.operation_logs page_id = some log) :
    ((apply_operation mgr page_id op user_id gen).2.success = false ∧
       (apply_operation mgr page_id op user_id gen).1 = mgr) ∨
    ((apply_operation mgr page_id op user_id gen).2.success = true ∧
      ∃ st2 : RoomState, st2.version = st.version + 1 ∧
        dictGet (apply_operation mgr page_id op user_id gen).1.active_states page_id =
          some (some st2) ∧
        (∃ log2, dictGet (apply_operation mgr page_id op user_id gen).1.operation_logs page_id =
          some log2) ∧
        (apply_operation mgr page_id op user_id gen).2.new_version = some st2.version) := by
  unfold apply_operation
  simp only [hst, applyOperationToStored]
  cases hres : applyOperationToState st
      { op with id := some gen.opId, timestamp := some gen.now, user_id := some user_id }
      gen.freshId gen.now with
  | error e => exact Or.inl ⟨rfl, rfl⟩
  | ok sr =>
      rw [hlog]
      right
      refine ⟨rfl,
        { sr.1 with
          version := sr.1.version + 1
          metadata := { sr.1.metadata with
                        last_modified := gen.now
                        last_modified_by := some user_id } },
        ?_, ?_, ⟨log ++ [{ op with id := some gen.opId, timestamp := some gen.now, user_id := some user_id }], ?_⟩, rfl⟩
      · show sr.1.version + 1 = st.version + 1
        rw [applyOperationToState_version_eq st _ gen.freshId gen.now sr hres]
      · show dictGet (if _ then _ else _ : CRDTStateManager).active_states page_id = _
        split <;> exact dictGet_insert_self ..
      · show dictGet (if _ then _ else _ : CRDTStateManager).operation_logs page_id = _
        split <;> exact dictGet_insert_self ..

/-- Folding a sequence of `apply_operation` calls over a loaded page leaves
the page's version at the initial version plus the number of successful
applications. -/
theorem applyOps_version_count (page_id : Nat) (ops : List OpInvocation) :
    ∀ (mgr : CRDTStateManager) (st : RoomState) (log : List Operation),
      dictGet mgr.active_states page_id = some (some st) →
      dictGet mgr.operation_logs page_id = some log →
      activeVersion (applyOps page_id mgr ops).1 page_id =
        some (st.version + countSuccess (applyOps page_id mgr ops).2) := by
  induction ops with
  | nil =>
      intro mgr st log hst _
      simp [applyOps, activeVersion, hst, countSuccess]
  | cons i rest ih =>
      intro mgr st log hst hlog
      rcases apply_operation_spec mgr page_id i.op i.user_id i.gen st log hst hlog with
        ⟨hfail, heq⟩ | ⟨hsucc, st2, hver, hact, ⟨log2, hlog2⟩, _⟩
      · simp only [applyOps, countSuccess, List.filter_cons, hfail,
                   Bool.false_eq_true, if_false, heq]
        exact ih mgr st log hst hlog
      · simp only [applyOps, countSuccess, List.filter_cons, hsucc, if_true,
                   List.length_cons]
        rw [ih (apply_operation mgr page_id i.op i.user_id i.gen).1 st2 log2 hact hlog2]
        congr 1
        simp only [countSuccess]
        omega

/-!
## Claim theorems
-/

/-- C1: on a loaded room, a failed `apply_operation` (nonexistent
segment/comment/suggestion id, unrecognized type) returns a failure result
and leaves the manager — version, segments, comments, suggestions and
operation log — entirely unchanged; a successful one bumps the room's
version by exactly one and reports it; and over any sequence of calls the
final version equals the initial version plus the number of successful
applications. -/
theorem apply_operation_version_discipline (mgr : CRDTStateManager)
    (page_id : Nat) (st : RoomState) (log : List Operation)
    (hst : dictGet mgr.active_states page_id = some (some st))
    (hlog : dictGet mgr.operation_logs page_id = some log)
    (op : Operation) (user_id : String) (gen : Gen) (ops : List OpInvocation) :
    ((apply_operation mgr page_id op user_id gen).2.success = false →
        (apply_operation mgr page_id op user_id gen).1 = mgr) ∧
    ((apply_operation mgr page_id op user_id gen).2.success = true →
        activeVersion (apply_operation mgr page_id op user_id gen).1 page_id =
          some (st.version + 1) ∧
        (apply_operation mgr page_id op user_id gen).2.new_version =
          some (st.version + 1)) ∧
    activeVersion (applyOps page_id mgr ops).1 page_id =
      some (st.version + countSuccess (applyOps page_id mgr ops).2) := by
  refine ⟨?_, ?_, applyOps_version_count page_id ops mgr st log hst hlog⟩
  · intro hf
    rcases apply_operation_spec mgr page_id op user_id gen st log hst hlog with
      ⟨_, heq⟩ | ⟨hsucc, _⟩
    · exact heq
    · rw [hf] at hsucc; exact Bool.noConfusion hsucc
  · intro ht
    rcases apply_operation_spec mgr page_id op user_id gen st log hst hlog with
      ⟨hfail, _⟩ | ⟨_, st2, hver, hact, _, hnv⟩
    · rw [ht] at hfail; exact Bool.noConfusion hfail
    · constructor
      · simp [activeVersion, hact, hver]
      · rw [hnv, hver]

/-- Witness for C1 at a concrete manager: page 1 loaded with the fresh empty
room and an empty log; the probed single call is a failing update of a
nonexistent segment, and the probed sequence is a successful insert followed
by that failing update. -/
theorem apply_operation_version_discipline_witness :
    (dictGet managerC1.active_states 1 = some (some emptyRoom) ∧
     dictGet managerC1.operation_logs 1 = some []) ∧
    (((apply_operation managerC1 1 badUpdateOp "u1" sampleGen).2.success = false →
        (apply_operation managerC1 1 badUpdateOp "u1" sampleGen).1 = managerC1) ∧
     ((apply_operation managerC1 1 badUpdateOp "u1" sampleGen).2.success = true →
        activeVersion (apply_operation managerC1 1 badUpdateOp "u1" sampleGen).1 1 =
          some (emptyRoom.version + 1) ∧
        (apply_operation managerC1 1 badUpdateOp "u1" sampleGen).2.new_version =
          some (emptyRoom.version + 1)) ∧
     activeVersion (applyOps 1 managerC1
         [⟨insertOp, "u1", sampleGen⟩, ⟨badUpdateOp, "u1", sampleGen⟩]).1 1 =
       some (emptyRoom.version + countSuccess (applyOps 1 managerC1
         [⟨insertOp, "u1", sampleGen⟩, ⟨badUpdateOp, "u1", sampleGen⟩]).2)) :=
  ⟨⟨rfl, rfl⟩,
   apply_operation_version_discipline managerC1 1 emptyRoom [] rfl rfl
     badUpdateOp "u1" sampleGen
     [⟨insertOp, "u1", sampleGen⟩, ⟨badUpdateOp, "u1", sampleGen⟩]⟩

/-- C3 correction: `initialize_page_state` is not an idempotent no-op.
Called on a room that is already loaded (version 2, one logged operation,
one present user) with an empty snapshot store, it replaces the active
state with a fresh version-1 state and resets the room's operation log and
presence set. -/
theorem initialize_page_state_not_idempotent :
    (initialize_page_state managerC3 1 99).1 ≠ managerC3 ∧
    (initialize_page_state managerC3 1 99).2 ≠ some sampleState ∧
    dictGet (initialize_page_state managerC3 1 99).1.operation_logs 1 = some [] ∧
    dictGet (initialize_page_state managerC3 1 99).1.presence 1 = some ∅ := by
  refine ⟨by decide, by decide, rfl, rfl⟩

/-- C3 amended: `initialize_page_state` adopts the latest snapshot's
payload when one exists (a fresh empty state otherwise), stores it as the
page's active state, and unconditionally resets the page's operation log to
`[]` and its presence set to `∅` — it is a reload-and-reset, not a no-op;
callers guard it behind a membership check. -/
theorem initialize_page_state_resets (mgr : CRDTStateManager)
    (page_id now : Nat) :
    dictGet (initialize_page_state mgr page_id now).1.active_states page_id =
      some (initialize_page_state mgr page_id now).2 ∧
    dictGet (initialize_page_state mgr page_id now).1.operation_logs page_id =
      some [] ∧
    dictGet (initialize_page_state mgr page_id now).1.presence page_id =
      some ∅ ∧
    (initialize_page_state mgr page_id now).2 =
      (match get_latest_snapshot mgr.snapshot_store page_id with
       | some snap => snap.state
       | none => some (freshRoomState page_id now)) := by
  refine ⟨?_, ?_, ?_, rfl⟩ <;>
    simp [initialize_page_state, dictGet_insert_self]

/-- C5: `list_snapshots` pops the `"state"` key out of the stored snapshot
records themselves (the listing holds references to the stored dicts), so a
subsequent `get_snapshot` on a listed id raises `KeyError` internally and
returns `None` instead of the stored payload.  Concretely: store one
snapshot of `sampleState` for room 1, list the room's snapshots, then fetch
the snapshot by its id. -/
theorem list_snapshots_destroys_stored_payload :
    get_snapshot ((list_snapshots
        ((create_snapshot ⟨[]⟩ 1 sampleState "u" 2 "snap-1" 10).1) 1 10 0).1)
      "snap-1" = none ∧
    get_snapshot ((create_snapshot ⟨[]⟩ 1 sampleState "u" 2 "snap-1" 10).1)
      "snap-1" =
      some ⟨"snap-1", 1, 2, some sampleState, "u", 10,
            (compressState sampleState).length⟩ := by
  constructor
  · rfl
  · rw [show (create_snapshot ⟨[]⟩ 1 sampleState "u" 2 "snap-1" 10).1 =
        ⟨[("snap-1", ⟨"snap-1", 1, 2, some (compressState sampleState), "u", 10,
          (compressState sampleState).length⟩)]⟩ from rfl]
    simp [get_snapshot, dictGet, List.find?, decompress_compress]

/-- C7: the snapshot round-trip.  For every store, room id, state, creator
and version, `get_snapshot` of a freshly created snapshot returns the full
record whose decoded state is exactly the stored state: the compression
pipeline followed by decompression is the identity on stored room states. -/
theorem snapshot_round_trip (store : SnapshotStore) (page_id : Nat)
    (st : RoomState) (created_by : String) (version : Nat) (snapId : String)
    (now : Nat) :
    get_snapshot (create_snapshot store page_id st created_by version snapId now).1
        (create_snapshot store page_id st created_by version snapId now).2 =
      some ⟨snapId, page_id, version, some st, created_by, now,
            (compressState st).length⟩ := by
  simp [create_snapshot, get_snapshot, dictGet_insert_self, decompress_compress]

/-- C4 counterexample: accepting pending suggestion `s1` succeeds, and the
subsequent `reject_suggestion` on the now-terminal suggestion also succeeds
— returning a success payload and overwriting the status to `"rejected"` —
where the claim requires it to fail with the status remaining
`"accepted"`. -/
theorem suggestion_terminal_state_counterexample :
    applyOperationToState suggestionRoom acceptOp "f" 1 =
      .ok (acceptedRoom, .suggestionAccepted (some "s1")) ∧
    applyOperationToState acceptedRoom rejectOp "f" 2 =
      .ok (rejectedAfterRoom, .suggestionRejected (some "s1")) ∧
    rejectedAfterRoom.suggestions.map (fun s => s.status) = ["rejected"] :=
  ⟨rfl, rfl, rfl⟩

/-- C4 amended: suggestion status transitions are not guarded.
`_accept_suggestion` and `_reject_suggestion` overwrite the status of the
first matching suggestion unconditionally — accept sets `"accepted"` and
reject sets `"rejected"` whatever the current status, terminal or not — so
a reject after a successful accept also succeeds and flips the status (and
symmetrically). -/
theorem suggestion_status_unconditional_overwrite (st : RoomState)
    (op : Operation) (freshId : String) (now : Nat) (s : Suggestion)
    (hfind : st.suggestions.find? (fun t => op.suggestion_id == some t.id) = some s) :
    (op.type = some "accept_suggestion" →
      ∃ st', applyOperationToState st op freshId now =
          .ok (st', .suggestionAccepted op.suggestion_id) ∧
        st'.suggestions.find? (fun t => op.suggestion_id == some t.id) =
          some { s with status := "accepted", accepted_at := some now, accepted_by := op.user_id }) ∧
    (op.type = some "reject_suggestion" →
      ∃ st', applyOperationToState st op freshId now =
          .ok (st', .suggestionRejected op.suggestion_id) ∧
        st'.suggestions.find? (fun t => op.suggestion_id == some t.id) =
          some { s with status := "rejected", rejected_at := some now, rejected_by := op.user_id }) := by
  constructor
  · intro htype
    obtain ⟨l', hu, hf⟩ := updateFirst_find
      (fun t => op.suggestion_id == some t.id)
      (fun t => { t with status := "accepted", accepted_at := some now, accepted_by := op.user_id })
      (fun t => rfl) st.suggestions s hfind
    refine ⟨{ st with suggestions := l' }, ?_, hf⟩
    simp [applyOperationToState, acceptSuggestionOp, htype, hu]
  · intro htype
    obtain ⟨l', hu, hf⟩ := updateFirst_find
      (fun t => op.suggestion_id == some t.id)
      (fun t => { t with status := "rejected", rejected_at := some now, rejected_by := op.user_id })
      (fun t => rfl) st.suggestions s hfind
    refine ⟨{ st with suggestions := l' }, ?_, hf⟩
    simp [applyOperationToState, rejectSuggestionOp, htype, hu]

/-- Witness for the amended C4 at the concrete accepted suggestion:
rejecting the already-accepted `s1` succeeds and overwrites its status. -/
theorem suggestion_status_unconditional_overwrite_witness :
    acceptedRoom.suggestions.find?
        (fun t => rejectOp.suggestion_id == some t.id) =
      some ⟨"s1", some "seg-1", "orig", "sugg", some "u1", 0, "accepted",
            some 1, some "u2", none, none⟩ ∧
    ((rejectOp.type = some "accept_suggestion" →
      ∃ st', applyOperationToState acceptedRoom rejectOp "f" 2 =
          .ok (st', .suggestionAccepted rejectOp.suggestion_id) ∧
        st'.suggestions.find? (fun t => rejectOp.suggestion_id == some t.id) =
          some { (⟨"s1", some "seg-1", "orig", "sugg", some "u1", 0, "accepted",
                   some 1, some "u2", none, none⟩ : Suggestion) with
                 status := "accepted", accepted_at := some 2, accepted_by := rejectOp.user_id }) ∧
    (rejectOp.type = some "reject_suggestion" →
      ∃ st', applyOperationToState acceptedRoom rejectOp "f" 2 =
          .ok (st', .suggestionRejected rejectOp.suggestion_id) ∧
        st'.suggestions.find? (fun t => rejectOp.suggestion_id == some t.id) =
          some { (⟨"s1", some "seg-1", "orig", "sugg", some "u1", 0, "accepted",
                   some 1, some "u2", none, none⟩ : Suggestion) with
                 status := "rejected", rejected_at := some 2, rejected_by := rejectOp.user_id })) :=
  ⟨rfl, suggestion_status_unconditional_overwrite acceptedRoom rejectOp "f" 2
     ⟨"s1", some "seg-1", "orig", "sugg", some "u1", 0, "accepted",
      some 1, some "u2", none, none⟩ rfl⟩

/-- C9 counterexample: the `add_comment` operation with empty text and a
segment id that exists in no segment of the room is applied to a room with
no segments — it succeeds and appends the comment, where the claim requires
an InvalidInput/NotFound rejection with no mutation. -/
theorem comment_validation_counterexample :
    applyOperationToState emptyRoom badCommentOp "f" 3 =
      .ok ({ emptyRoom with comments := [⟨"c1", some "ghost", "", some "u1", 3, false, none⟩] }, .commentAdded "c1") ∧
    emptyRoom.segments = [] ∧ badCommentOp.text = some "" :=
  ⟨rfl, rfl, rfl⟩

/-- C9 amended: comment creation performs no validation.  `_add_comment`
appends a comment built from the operation — text defaulting to `""`,
`segment_id` taken as given — and succeeds for every room state and every
operation of type `add_comment`, with no check that the text is non-empty
or that the segment exists; `CommentsService.create_comment` likewise
returns a comment record carrying whatever text and segment id it was
given. -/
theorem add_comment_no_validation (st : RoomState) (op : Operation)
    (freshId : String) (now : Nat) (htype : op.type = some "add_comment")
    (page_id : Nat) (segment_id text user_id : String)
    (parent : Option String) (commentId : String) (now2 : Nat) :
    applyOperationToState st op freshId now =
      .ok ({ st with comments := st.comments ++ [⟨op.comment_id.getD freshId, op.segment_id, op.text.getD "", op.user_id, now, false, none⟩] }, .commentAdded (op.comment_id.getD freshId)) ∧
    (create_comment page_id segment_id text user_id parent commentId now2).text = text ∧
    (create_comment page_id segment_id text user_id parent commentId now2).segment_id = segment_id := by
  refine ⟨?_, rfl, rfl⟩
  simp [applyOperationToState, htype, addCommentOp]

/-- Witness for the amended C9 at the concrete empty-text, dangling-segment
operation on the segment-free room. -/
theorem add_comment_no_validation_witness :
    badCommentOp.type = some "add_comment" ∧
    (applyOperationToState emptyRoom badCommentOp "f" 3 =
      .ok ({ emptyRoom with comments := emptyRoom.comments ++ [⟨badCommentOp.comment_id.getD "f", badCommentOp.segment_id, badCommentOp.text.getD "", badCommentOp.user_id, 3, false, none⟩] }, .commentAdded (badCommentOp.comment_id.getD "f")) ∧
    (create_comment 1 "ghost" "" "u1" none "c1" 3).text = "" ∧
    (create_comment 1 "ghost" "" "u1" none "c1" 3).segment_id = "ghost") :=
  ⟨rfl, add_comment_no_validation emptyRoom badCommentOp "f" 3 rfl 1 "ghost" "" "u1" none "c1" 3⟩

/-- A held lock decomposes into the page's lock dict and the resource's
entry. -/
theorem lockLookup_elim (ps : PresenceService) (page_id : Nat)
    (resource : String) (l : LockInfo)
    (hl : lockLookup ps page_id resource = some l) :
    ∃ locks, dictGet ps.soft_locks page_id = some locks ∧
      dictGet locks resource = some l := by
  unfold lockLookup at hl
  rcases hd : dictGet ps.soft_locks page_id with _ | locks
  · rw [hd] at hl; exact Option.noConfusion hl
  · rw [hd] at hl; exact ⟨locks, rfl, hl⟩

/-- C2: while `a` holds a non-expired lock on the resource, an acquisition
by `b ≠ a` fails, the whole service state is returned unchanged, and the
failure carries the holder and its expiry; once the lock has expired, `b`'s
acquisition succeeds and silently replaces the entry with a fresh lock
expiring 300 seconds (5 minutes) after the acquisition instant. -/
theorem acquire_soft_lock_mutual_exclusion (ps : PresenceService)
    (page_id : Nat) (a b resource lock_type lockId : String) (now : Nat)
    (l : LockInfo) (hl : lockLookup ps page_id resource = some l)
    (howner : l.user_id = a) (hab : b ≠ a) :
    (now < l.expires_at →
      acquire_soft_lock ps page_id b resource lock_type lockId now =
        (ps, .failure "Resource is already locked by another user" a l.expires_at)) ∧
    (l.expires_at ≤ now →
      (acquire_soft_lock ps page_id b resource lock_type lockId now).2 =
        .success lockId resource lock_type (now + 300) ∧
      lockLookup (acquire_soft_lock ps page_id b resource lock_type lockId now).1
          page_id resource =
        some ⟨lockId, b, resource, lock_type, now, now + 300, true⟩) := by
  obtain ⟨locks, hpage, hres⟩ := lockLookup_elim ps page_id resource l hl
  have hlb : l.user_id ≠ b := by rw [howner]; exact fun h => hab h.symm
  constructor
  · intro hlt
    simp only [acquire_soft_lock, hpage, Option.getD_some, hres]
    rw [if_pos ⟨hlb, hlt⟩, howner]
  · intro hge
    have hcond : ¬ (l.user_id ≠ b ∧ now < l.expires_at) := by
      rintro ⟨_, hlt⟩; omega
    simp only [acquire_soft_lock, hpage, Option.getD_some, hres]
    rw [if_neg hcond]
    refine ⟨rfl, ?_⟩
    simp [lockLookup, dictGet_insert_self]

/-- Witness for C2 at the concrete service where `a` holds the lock on
`seg-1` expiring at 300, probed with `b`'s acquisition at time 100. -/
theorem acquire_soft_lock_mutual_exclusion_witness :
    (lockLookup psWithLock 1 "seg-1" = some lockOfA ∧
     lockOfA.user_id = "a" ∧ "b" ≠ "a") ∧
    ((100 < lockOfA.expires_at →
      acquire_soft_lock psWithLock 1 "b" "seg-1" "edit" "l2" 100 =
        (psWithLock, .failure "Resource is already locked by another user" "a" lockOfA.expires_at)) ∧
     (lockOfA.expires_at ≤ 100 →
      (acquire_soft_lock psWithLock 1 "b" "seg-1" "edit" "l2" 100).2 =
        .success "l2" "seg-1" "edit" (100 + 300) ∧
      lockLookup (acquire_soft_lock psWithLock 1 "b" "seg-1" "edit" "l2" 100).1 1 "seg-1" =
        some ⟨"l2", "b", "seg-1", "edit", 100, 100 + 300, true⟩)) :=
  ⟨⟨rfl, rfl, by decide⟩,
   acquire_soft_lock_mutual_exclusion psWithLock 1 "a" "b" "seg-1" "edit" "l2"
     100 lockOfA rfl rfl (by decide)⟩

/-- C8: `release_soft_lock` and `renew_soft_lock` by a non-holder `b` fail
and return the service state byte-for-byte unchanged, while a release by
the holder `a` succeeds and deletes the lock entry entirely. -/
theorem lock_ownership_enforced (ps : PresenceService) (page_id : Nat)
    (a b resource : String) (now now2 : Nat) (l : LockInfo)
    (hl : lockLookup ps page_id resource = some l)
    (howner : l.user_id = a) (hab : b ≠ a) :
    release_soft_lock ps page_id b resource now =
      (ps, .failure "Lock not owned by user") ∧
    renew_soft_lock ps page_id b resource now =
      (ps, .failure "Lock not owned by user") ∧
    (release_soft_lock ps page_id a resource now2).2 = .success resource now2 ∧
    lockLookup (release_soft_lock ps page_id a resource now2).1 page_id resource =
      none := by
  obtain ⟨locks, hpage, hres⟩ := lockLookup_elim ps page_id resource l hl
  have hlb : l.user_id ≠ b := by rw [howner]; exact fun h => hab h.symm
  have hla : ¬ (l.user_id ≠ a) := fun h => h howner
  refine ⟨?_, ?_, ?_, ?_⟩
  · simp only [release_soft_lock, hpage, hres]
    rw [if_pos hlb]
  · simp only [renew_soft_lock, hpage, hres]
    rw [if_pos hlb]
  · simp only [release_soft_lock, hpage, hres]
    rw [if_neg hla]
  · simp only [release_soft_lock, hpage, hres]
    rw [if_neg hla]
    simp [lockLookup, dictGet_insert_self, dictGet_erase_self]

/-- Witness for C8 at the concrete held lock. -/
theorem lock_ownership_enforced_witness :
    (lockLookup psWithLock 1 "seg-1" = some lockOfA ∧
     lockOfA.user_id = "a" ∧ "b" ≠ "a") ∧
    (release_soft_lock psWithLock 1 "b" "seg-1" 100 =
      (psWithLock, .failure "Lock not owned by user") ∧
    renew_soft_lock psWithLock 1 "b" "seg-1" 100 =
      (psWithLock, .failure "Lock not owned by user") ∧
    (release_soft_lock psWithLock 1 "a" "seg-1" 200).2 = .success "seg-1" 200 ∧
    lockLookup (release_soft_lock psWithLock 1 "a" "seg-1" 200).1 1 "seg-1" = none) :=
  ⟨⟨rfl, rfl, by decide⟩,
   lock_ownership_enforced psWithLock 1 "a" "b" "seg-1" 100 200 lockOfA rfl rfl
     (by decide)⟩

/-- C10: neither `renew_soft_lock` nor `release_soft_lock` checks expiry —
only ownership.  A lock of `a` that is already expired (`expires_at ≤ now`)
and not yet swept is happily renewed by `a` to expire 300 seconds from the
renewal instant (reviving it), and is likewise released by `a`, deleting
the entry. -/
theorem expired_lock_renew_and_release (ps : PresenceService) (page_id : Nat)
    (a resource : String) (now now2 : Nat) (l : LockInfo)
    (hl : lockLookup ps page_id resource = some l)
    (howner : l.user_id = a) (_hexp : l.expires_at ≤ now) :
    (renew_soft_lock ps page_id a resource now).2 = .success resource (now + 300) ∧
    lockLookup (renew_soft_lock ps page_id a resource now).1 page_id resource =
      some { l with expires_at := now + 300 } ∧
    (release_soft_lock ps page_id a resource now2).2 = .success resource now2 ∧
    lockLookup (release_soft_lock ps page_id a resource now2).1 page_id resource =
      none := by
  obtain ⟨locks, hpage, hres⟩ := lockLookup_elim ps page_id resource l hl
  have hla : ¬ (l.user_id ≠ a) := fun h => h howner
  refine ⟨?_, ?_, ?_, ?_⟩
  · simp only [renew_soft_lock, hpage, hres]
    rw [if_neg hla]
  · simp only [renew_soft_lock, hpage, hres]
    rw [if_neg hla]
    simp [lockLookup, dictGet_insert_self]
  · simp only [release_soft_lock, hpage, hres]
    rw [if_neg hla]
  · simp only [release_soft_lock, hpage, hres]
    rw [if_neg hla]
    simp [lockLookup, dictGet_insert_self, dictGet_erase_self]

/-- Witness for C10: at time 400 the lock expiring at 300 is expired, yet
its holder renews and releases it successfully. -/
theorem expired_lock_renew_and_release_witness :
    (lockLookup psWithLock 1 "seg-1" = some lockOfA ∧
     lockOfA.user_id = "a" ∧ lockOfA.expires_at ≤ 400) ∧
    ((renew_soft_lock psWithLock 1 "a" "seg-1" 400).2 = .success "seg-1" (400 + 300) ∧
    lockLookup (renew_soft_lock psWithLock 1 "a" "seg-1" 400).1 1 "seg-1" =
      some { lockOfA with expires_at := 400 + 300 } ∧
    (release_soft_lock psWithLock 1 "a" "seg-1" 500).2 = .success "seg-1" 500 ∧
    lockLookup (release_soft_lock psWithLock 1 "a" "seg-1" 500).1 1 "seg-1" = none) :=
  ⟨⟨rfl, rfl, by decide⟩,
   expired_lock_renew_and_release psWithLock 1 "a" "seg-1" 400 500 lockOfA rfl
     rfl (by decide)⟩

/-- C6: `leave_page` for the room's last active user raises `KeyError`
whenever no soft lock was ever acquired in the room: `join_page` never
creates the room's `soft_locks` entry, and the cleanup branch deletes it
with a bare `del`.  Concretely, `alice` joins room 1, acquires no lock, and
leaves: the call raises (after having already deleted the presence map)
instead of returning the updated active list with all per-room maps
reclaimed. -/
theorem leave_page_keyerror_when_no_lock_ever_acquired :
    (leave_page (join_page ⟨[], [], [], [], []⟩ 1 "alice" ⟨some "Alice", none, none⟩ 0).1 1 "alice" 5).2 = LeaveResult.keyError ∧
    dictGet (leave_page (join_page ⟨[], [], [], [], []⟩ 1 "alice" ⟨some "Alice", none, none⟩ 0).1 1 "alice" 5).1.active_users 1 = none ∧
    dictGet (join_page ⟨[], [], [], [], []⟩ 1 "alice" ⟨some "Alice", none, none⟩ 0).1.soft_locks 1 = none ∧
    dictGet (join_page ⟨[], [], [], [], []⟩ 1 "alice" ⟨some "Alice", none, none⟩ 0).1.active_users 1 ≠ none :=
  ⟨rfl, rfl, rfl, by decide⟩
